import Mathlib

/-!
Shallow embedding of the render-target / draw-validation core of the
`glium` repository (files `src/framebuffer.rs`, `src/program/uniforms_storage.rs`,
`src/transform_feedback.rs`), together with theorems settling the frozen
claims about the natural-language specification.

Conventions:
* Rust `u32`/`i32`/`usize` values used here never overflow in the code paths
  modelled (indices, pixel dimensions, slot numbers), so they are embedded as
  `Nat` / `Int`.
* Rust `panic!` / `unimplemented!` / failed `assert!` are embedded as the
  `Except`-error of a `Panic` enumeration: a panicking construction returns
  `Except.error` instead of a value.
* `f32` payloads of uniform values are embedded as `F32 := Option ℚ`, where
  `none` plays the role of IEEE NaN: the embedded equality `eqF32` mirrors the
  one observable property of Rust `==` on `f32` that the code uses, namely
  that NaN compares unequal to everything including itself, while ordinary
  values compare by value.
-/

/-- Embedded `f32`: `none` is NaN, `some q` an ordinary (finite) value. -/
abbrev F32 : Type := Option ℚ

/-- IEEE `==` on embedded `f32`: NaN is unequal to everything, itself included. -/
def eqF32 : F32 → F32 → Bool
  | some x, some y => decide (x = y)
  | _, _ => false

/-- Componentwise IEEE equality on vectors/matrices of `f32` (Rust `==` on
arrays is componentwise). -/
def eqListF32 : List F32 → List F32 → Bool
  | [], [] => true
  | x :: xs, y :: ys => eqF32 x y && eqListF32 xs ys
  | _, _ => false

/-- Embedding of `uniforms::UniformValue` (the enum itself lives outside the
provided sources; its nine comparable kinds are exactly the ones named by the
match arms of `UniformsStorage::compare_and_store`, and `Texture2d` stands for
the opaque texture kinds that the final `_` arm of that match ignores).
Vector and matrix payloads are embedded as lists of `F32` components, since
the only operation the code performs on them is componentwise `==`. -/
inductive UniformValue : Type
  | SignedInt (v : Int)
  | UnsignedInt (v : Nat)
  | Float (v : F32)
  | Mat2 (v : List F32)
  | Mat3 (v : List F32)
  | Mat4 (v : List F32)
  | Vec2 (v : List F32)
  | Vec3 (v : List F32)
  | Vec4 (v : List F32)
  | Texture2d (id : Nat)
  deriving DecidableEq

/-- Kind tag of a uniform value (used to say when two values are
"of the same kind"). -/
def UniformValue.kindIndex : UniformValue → Nat
  | .SignedInt _ => 0
  | .UnsignedInt _ => 1
  | .Float _ => 2
  | .Mat2 _ => 3
  | .Mat3 _ => 4
  | .Mat4 _ => 5
  | .Vec2 _ => 6
  | .Vec3 _ => 7
  | .Vec4 _ => 8
  | .Texture2d _ => 9

/-- Two uniform values are of the same kind when they use the same constructor. -/
def UniformValue.sameKind (a b : UniformValue) : Bool :=
  a.kindIndex = b.kindIndex

/-- A value is comparable when it is one of the nine kinds the cache compares;
texture (opaque resource) kinds are not comparable. -/
def UniformValue.comparable : UniformValue → Bool
  | .Texture2d _ => false
  | _ => true

/-- The equality the guards of `compare_and_store` implement: same kind and
payloads equal under Rust `==` (IEEE equality for float-carrying kinds).
Opaque kinds never compare equal (no guard arm exists for them). -/
def UniformValue.eqUV : UniformValue → UniformValue → Bool
  | .SignedInt a, .SignedInt b => decide (a = b)
  | .UnsignedInt a, .UnsignedInt b => decide (a = b)
  | .Float a, .Float b => eqF32 a b
  | .Mat2 a, .Mat2 b => eqListF32 a b
  | .Mat3 a, .Mat3 b => eqListF32 a b
  | .Mat4 a, .Mat4 b => eqListF32 a b
  | .Vec2 a, .Vec2 b => eqListF32 a b
  | .Vec3 a, .Vec3 b => eqListF32 a b
  | .Vec4 a, .Vec4 b => eqListF32 a b
  | _, _ => false

/-- State of `UniformsStorage`: the `Vec<Option<UniformValue>>` behind the
`RefCell`, passed explicitly. -/
abbrev UniformsStorage : Type := List (Option UniformValue)

/-- The growth step at the top of `compare_and_store`: when
`values.len() <= uniform_location`, push `None` until the vector has
`uniform_location + 1` entries. -/
def UniformsStorage.grow (values : UniformsStorage) (uniform_location : Nat) :
    UniformsStorage :=
  if values.length ≤ uniform_location then
    values ++ List.replicate (uniform_location + 1 - values.length)
      (none : Option UniformValue)
  else
    values

/-- Embedding of `UniformsStorage::compare_and_store`. Returns the `bool`
result (`true` means the old and new values were equal, so the upload may be
skipped) together with the storage after the call. Each comparable kind has a
guard arm (`true` when the slot holds the same kind with an equal payload) and
a store arm (write the new value, report `false`); the final arm is the
`_ => false` of the source, which ignores texture kinds without storing. -/
def UniformsStorage.compare_and_store (s : UniformsStorage)
    (uniform_location : Nat) (value : UniformValue) :
    Bool × UniformsStorage :=
  let values := s.grow uniform_location
  match value, values.getD uniform_location none with
  | .SignedInt a, some (.SignedInt b) =>
      if a = b then (true, values)
      else (false, values.set uniform_location (some (.SignedInt a)))
  | .SignedInt a, _ => (false, values.set uniform_location (some (.SignedInt a)))
  | .UnsignedInt a, some (.UnsignedInt b) =>
      if a = b then (true, values)
      else (false, values.set uniform_location (some (.UnsignedInt a)))
  | .UnsignedInt a, _ => (false, values.set uniform_location (some (.UnsignedInt a)))
  | .Float a, some (.Float b) =>
      if eqF32 a b then (true, values)
      else (false, values.set uniform_location (some (.Float a)))
  | .Float a, _ => (false, values.set uniform_location (some (.Float a)))
  | .Mat2 a, some (.Mat2 b) =>
      if eqListF32 a b then (true, values)
      else (false, values.set uniform_location (some (.Mat2 a)))
  | .Mat2 a, _ => (false, values.set uniform_location (some (.Mat2 a)))
  | .Mat3 a, some (.Mat3 b) =>
      if eqListF32 a b then (true, values)
      else (false, values.set uniform_location (some (.Mat3 a)))
  | .Mat3 a, _ => (false, values.set uniform_location (some (.Mat3 a)))
  | .Mat4 a, some (.Mat4 b) =>
      if eqListF32 a b then (true, values)
      else (false, values.set uniform_location (some (.Mat4 a)))
  | .Mat4 a, _ => (false, values.set uniform_location (some (.Mat4 a)))
  | .Vec2 a, some (.Vec2 b) =>
      if eqListF32 a b then (true, values)
      else (false, values.set uniform_location (some (.Vec2 a)))
  | .Vec2 a, _ => (false, values.set uniform_location (some (.Vec2 a)))
  | .Vec3 a, some (.Vec3 b) =>
      if eqListF32 a b then (true, values)
      else (false, values.set uniform_location (some (.Vec3 a)))
  | .Vec3 a, _ => (false, values.set uniform_location (some (.Vec3 a)))
  | .Vec4 a, some (.Vec4 b) =>
      if eqListF32 a b then (true, values)
      else (false, values.set uniform_location (some (.Vec4 a)))
  | .Vec4 a, _ => (false, values.set uniform_location (some (.Vec4 a)))
  | _, _ => (false, values)

deriving instance DecidableEq for Except

/-! ## Attachment model and render-target construction (`src/framebuffer.rs`) -/

/-- External texture collaborator: an opaque handle plus width/height queries
(`get_id`, `get_width`, `get_height().unwrap()`). The mipmap wrapper types are
collapsed into the texture itself, since `new_impl` hardcodes `level: 0`. -/
structure Texture : Type where
  id : Nat
  width : Nat
  height : Nat
  deriving DecidableEq

/-- External render-buffer collaborator (`get_id`, `get_dimensions`). -/
structure RenderBuffer : Type where
  id : Nat
  width : Nat
  height : Nat
  deriving DecidableEq

/-- The OpenGL `TEXTURE_2D` binding constant. -/
def GL_TEXTURE_2D : Nat := 0x0DE1

/-- The OpenGL `TEXTURE_2D_MULTISAMPLE` binding constant. -/
def GL_TEXTURE_2D_MULTISAMPLE : Nat := 0x9100

/-- Embedding of `framebuffer::ColorAttachment`. The source enum has one
variant per texture kind; `new_impl` only implements `Texture2d`,
`Texture2dMultisample` and `RenderBuffer`, and sends all the remaining
variants to `unimplemented!()`, so those are collapsed into `OtherKind`. -/
inductive ColorAttachment : Type
  | Texture2d (tex : Texture)
  | Texture2dMultisample (tex : Texture)
  | RenderBuffer (buffer : RenderBuffer)
  | OtherKind
  deriving DecidableEq

/-- Embedding of `framebuffer::DepthAttachment`; variants other than
`Texture2d` and `RenderBuffer` hit `unimplemented!()` and are collapsed
into `OtherKind`. -/
inductive DepthAttachment : Type
  | Texture2d (tex : Texture)
  | RenderBuffer (buffer : RenderBuffer)
  | OtherKind
  deriving DecidableEq

/-- Embedding of `framebuffer::StencilAttachment`; same collapsing as for
`DepthAttachment`. -/
inductive StencilAttachment : Type
  | Texture2d (tex : Texture)
  | RenderBuffer (buffer : RenderBuffer)
  | OtherKind
  deriving DecidableEq

/-- Embedding of `framebuffer::DepthStencilAttachment` (every construction
using one is rejected up front by `new_impl`). -/
inductive DepthStencilAttachment : Type
  | Texture2d (tex : Texture)
  | RenderBuffer (buffer : RenderBuffer)
  | OtherKind
  deriving DecidableEq

/-- Embedding of `fbo::Attachment`: the resolved internal attachment
representation (native id + bind point + mip level + layer, or a
render-buffer id). -/
inductive FboAttachment : Type
  | TextureA (id : Nat) (bind_point : Nat) (level : Nat) (layer : Nat)
  | RenderBufferA (id : Nat)
  deriving DecidableEq

/-- Modelled from the spec: the `fbo::FramebufferDepthStencilAttachments`
enum lives in `src/fbo.rs`, which is not among the provided sources; the spec
describes it as "one of {None, DepthOnly(Attachment), StencilOnly(Attachment),
DepthAndStencil(Attachment, Attachment)}". The source of `framebuffer.rs`
uses the variants named `None`, `DepthAttachment` (= `DepthOnlyA`) and
`DepthAndStencilAttachments` (= `DepthAndStencilA`). -/
inductive FramebufferDepthStencilAttachments : Type
  | NoneA
  | DepthOnlyA (a : FboAttachment)
  | StencilOnlyA (a : FboAttachment)
  | DepthAndStencilA (d : FboAttachment) (s : FboAttachment)
  deriving DecidableEq

/-- Embedding of `fbo::FramebufferAttachments`. -/
structure FramebufferAttachments : Type where
  colors : List (Nat × FboAttachment)
  depth_stencil : FramebufferDepthStencilAttachments
  deriving DecidableEq

/-- The panics that render-target construction and attachment resolution can
raise (`panic!`, `unimplemented!`, failed `assert!`), each tagged with the
source site it embeds. -/
inductive Panic : Type
  | unimplementedDepthStencil
  | unimplementedAttachmentKind
  | depthDimensionMismatch
  | stencilDimensionMismatch
  | multiOutputDimensionMismatch
  | emptyColorAttachments
  | assertStencilNone
  | fragOutputNotFound (name : String)
  deriving DecidableEq

/-- Embedding of `framebuffer::SimpleFrameBuffer` (the `context` handle and
the lifetime marker carry no data relevant to the claims and are dropped). -/
structure SimpleFrameBuffer : Type where
  attachments : FramebufferAttachments
  dimensions : Nat × Nat
  depth_buffer_bits : Option Nat
  stencil_buffer_bits : Option Nat
  deriving DecidableEq

/-- Embedding of `SimpleFrameBuffer::new_impl`. Follows the source arm by
arm; panics become `Except.error`. Note that the classification of the
depth/stencil pair mirrors the source's `if let` chain exactly, including the
third arm (source line 220), which wraps a stencil-only attachment in the
depth-only variant `DepthAttachment` rather than in `StencilAttachment`. -/
def SimpleFrameBuffer.new_impl (color : ColorAttachment)
    (depth : Option DepthAttachment) (stencil : Option StencilAttachment)
    (depthstencil : Option DepthStencilAttachment) :
    Except Panic SimpleFrameBuffer := do
  if depthstencil.isSome then
    throw Panic.unimplementedDepthStencil
  let (dimensions, color_attachment) ←
    match color with
    | .Texture2d tex =>
        pure ((tex.width, tex.height),
              FboAttachment.TextureA tex.id GL_TEXTURE_2D 0 0)
    | .Texture2dMultisample tex =>
        pure ((tex.width, tex.height),
              FboAttachment.TextureA tex.id GL_TEXTURE_2D_MULTISAMPLE 0 0)
    | .RenderBuffer buffer =>
        pure ((buffer.width, buffer.height),
              FboAttachment.RenderBufferA buffer.id)
    | .OtherKind => throw Panic.unimplementedAttachmentKind
  let (depthA, depth_bits) ←
    match depth with
    | some (.Texture2d tex) =>
        if (tex.width, tex.height) ≠ dimensions then
          throw Panic.depthDimensionMismatch
        else
          pure (some (FboAttachment.TextureA tex.id GL_TEXTURE_2D 0 0),
                some 32)
    | some (.RenderBuffer buffer) =>
        -- the source has `// TODO: dimensions` here: no dimension check
        pure (some (FboAttachment.RenderBufferA buffer.id), some 32)
    | some .OtherKind => throw Panic.unimplementedAttachmentKind
    | none => pure (none, none)
  let (stencilA, stencil_bits) ←
    match stencil with
    | some (.Texture2d tex) =>
        if (tex.width, tex.height) ≠ dimensions then
          throw Panic.stencilDimensionMismatch
        else
          pure (some (FboAttachment.TextureA tex.id GL_TEXTURE_2D 0 0),
                some 8)
    | some (.RenderBuffer buffer) =>
        -- the source has `// TODO: dimensions` here: no dimension check
        pure (some (FboAttachment.RenderBufferA buffer.id), some 8)
    | some .OtherKind => throw Panic.unimplementedAttachmentKind
    | none => pure (none, none)
  pure {
    attachments := {
      colors := [(0, color_attachment)]
      depth_stencil :=
        match depthA, stencilA with
        | some d, some s => .DepthAndStencilA d s
        | some d, none => .DepthOnlyA d
        | none, some s => .DepthOnlyA s   -- source line 220: stencil in the depth variant
        | none, none => .NoneA
    }
    dimensions := dimensions
    depth_buffer_bits := depth_bits
    stencil_buffer_bits := stencil_bits }

/-- Embedding of `SimpleFrameBuffer::new`. -/
def SimpleFrameBuffer.mk_new (color : ColorAttachment) :
    Except Panic SimpleFrameBuffer :=
  SimpleFrameBuffer.new_impl color none none none

/-- Embedding of `SimpleFrameBuffer::with_depth_buffer`. -/
def SimpleFrameBuffer.with_depth_buffer (color : ColorAttachment)
    (depth : DepthAttachment) : Except Panic SimpleFrameBuffer :=
  SimpleFrameBuffer.new_impl color (some depth) none none

/-- Embedding of `SimpleFrameBuffer::with_depth_and_stencil_buffer`. -/
def SimpleFrameBuffer.with_depth_and_stencil_buffer (color : ColorAttachment)
    (depth : DepthAttachment) (stencil : StencilAttachment) :
    Except Panic SimpleFrameBuffer :=
  SimpleFrameBuffer.new_impl color (some depth) (some stencil) none

/-- Embedding of `SimpleFrameBuffer::with_stencil_buffer`. -/
def SimpleFrameBuffer.with_stencil_buffer (color : ColorAttachment)
    (stencil : StencilAttachment) : Except Panic SimpleFrameBuffer :=
  SimpleFrameBuffer.new_impl color none (some stencil) none

/-- Embedding of `SimpleFrameBuffer::with_depth_stencil_buffer`. -/
def SimpleFrameBuffer.with_depth_stencil_buffer (color : ColorAttachment)
    (depthstencil : DepthStencilAttachment) : Except Panic SimpleFrameBuffer :=
  SimpleFrameBuffer.new_impl color none none (some depthstencil)

/-! ## Program collaborator, transform feedback (`src/transform_feedback.rs`) -/

/-- Embedding of `program::TransformFeedbackMode` (consumed through
`get_transform_feedback_mode`). -/
inductive TransformFeedbackMode : Type
  | Interleaved
  | Separate
  deriving DecidableEq

/-- Embedding of the vertex attribute type enum (`vertex::AttributeType`,
outside the provided sources); only the equality of tags matters here, so the
float vector kinds used by the claims are listed. -/
inductive AttributeType : Type
  | F32
  | F32F32
  | F32F32F32
  | F32F32F32F32
  deriving DecidableEq

/-- A captured transform-feedback output variable, as enumerated by
`program.get_transform_feedback_varyings()`: the loop in
`is_transform_feedback_matching` reads its `name`, `size` and `ty` fields. -/
structure TransformFeedbackVarying : Type where
  name : String
  size : Nat
  ty : AttributeType
  deriving DecidableEq

/-- Embedding of `vertex::VertexFormat`: a list of
(attribute name, byte offset, attribute type) entries, the shape consumed by
`format.iter().find(|&&(ref n, o, t)| ...)`. -/
abbrev VertexFormat : Type := List (String × Nat × AttributeType)

/-- The program collaborator, reduced to the read-only capabilities this core
consumes: fragment-output slot lookup by name, the transform-feedback mode,
the captured-output variable list, and the native id. -/
structure Program : Type where
  id : Nat
  frag_data_locations : List (String × Nat)
  transform_feedback_mode : Option TransformFeedbackMode
  transform_feedback_varyings : List TransformFeedbackVarying
  deriving DecidableEq

/-- Embedding of `program.get_frag_data_location(name)`. -/
def Program.get_frag_data_location (program : Program) (name : String) :
    Option Nat :=
  program.frag_data_locations.lookup name

/-- The loop of `is_transform_feedback_matching`: each captured variable must
be present in the format with exactly the running cumulative offset and its
own name and type; the offset advances by the variable's size only after a
successful match (a miss returns `false` immediately). -/
def tfVaryingsMatchFrom : List TransformFeedbackVarying → Nat → VertexFormat →
    Bool
  | [], _, _ => true
  | var :: rest, current_offset, format =>
      if format.any (fun e =>
          e.1 == var.name && e.2.1 == current_offset && e.2.2 == var.ty) then
        tfVaryingsMatchFrom rest (current_offset + var.size) format
      else
        false

/-- Embedding of `transform_feedback::is_transform_feedback_matching`. -/
def is_transform_feedback_matching (format : VertexFormat)
    (program : Program) : Bool :=
  if program.transform_feedback_mode ≠ some TransformFeedbackMode.Interleaved
  then
    false
  else
    tfVaryingsMatchFrom program.transform_feedback_varyings 0 format

/-- The display/context collaborator, reduced to the two queries
`new_session` performs: whether the GL version is at least 3.0 and whether
the `EXT_transform_feedback` extension is present. -/
structure Display : Type where
  version_ge_gl_3_0 : Bool
  gl_ext_transform_feedback : Bool
  deriving DecidableEq

/-- The buffer collaborator (`get_id`). -/
structure Buffer : Type where
  id : Nat
  deriving DecidableEq

/-- Embedding of `transform_feedback::TransformFeedbackSession` (the two
lifetime markers carry no data). -/
structure TransformFeedbackSession : Type where
  buffer : Nat
  program_handle : Nat
  deriving DecidableEq

/-- Embedding of `transform_feedback::new_session`. -/
def new_session (display : Display) (buffer : Buffer) (format : VertexFormat)
    (program : Program) : Option TransformFeedbackSession :=
  if !display.version_ge_gl_3_0 && !display.gl_ext_transform_feedback then
    none
  else if !(is_transform_feedback_matching format program) then
    none
  else
    some { buffer := buffer.id, program_handle := program.id }

/-! ## Multi-output render target (`src/framebuffer.rs`) -/

/-- Embedding of `framebuffer::MultiOutputFrameBuffer` (context handle and
lifetime marker dropped; `color_attachments` stores (name, native id) pairs). -/
structure MultiOutputFrameBuffer : Type where
  dimensions : Nat × Nat
  color_attachments : List (String × Nat)
  depth_attachment : Option FboAttachment
  depth_buffer_bits : Option Nat
  stencil_attachment : Option FboAttachment
  stencil_buffer_bits : Option Nat
  deriving DecidableEq

/-- The color loop of `MultiOutputFrameBuffer::new_impl`: each texture's
dimensions are compared against the dimensions seen so far (panic on
mismatch), then recorded, and the (name, id) pair is appended. -/
def MultiOutputFrameBuffer.collectColors :
    List (String × Texture) → List (String × Nat) → Option (Nat × Nat) →
    Except Panic (List (String × Nat) × Option (Nat × Nat))
  | [], attachments, dimensions => pure (attachments, dimensions)
  | (name, texture) :: rest, attachments, dimensions =>
      let tex_dims := (texture.width, texture.height)
      match dimensions with
      | some d =>
          if d ≠ tex_dims then
            throw Panic.multiOutputDimensionMismatch
          else
            MultiOutputFrameBuffer.collectColors rest
              (attachments ++ [(name, texture.id)]) (some tex_dims)
      | none =>
          MultiOutputFrameBuffer.collectColors rest
            (attachments ++ [(name, texture.id)]) (some tex_dims)

/-- Embedding of `MultiOutputFrameBuffer::new_impl`. The `stencil` parameter
only ever receives `None` from the public constructors and is guarded by
`assert!(stencil.is_none())`. -/
def MultiOutputFrameBuffer.new_impl (color_attachments : List (String × Texture))
    (depth : Option DepthAttachment) (stencil : Option Unit) :
    Except Panic MultiOutputFrameBuffer := do
  if stencil.isSome then
    throw Panic.assertStencilNone
  let (attachments, dimensions0) ←
    MultiOutputFrameBuffer.collectColors color_attachments [] none
  let dimensions ←
    match dimensions0 with
    | none => throw Panic.emptyColorAttachments
    | some d => pure d
  let (depthA, depth_bits) ←
    match depth with
    | some (.Texture2d tex) =>
        if (tex.width, tex.height) ≠ dimensions then
          throw Panic.depthDimensionMismatch
        else
          pure (some (FboAttachment.TextureA tex.id GL_TEXTURE_2D 0 0),
                some 32)
    | some (.RenderBuffer buffer) =>
        -- the source has `// TODO: dimensions` here: no dimension check
        pure (some (FboAttachment.RenderBufferA buffer.id), some 32)
    | some .OtherKind => throw Panic.unimplementedAttachmentKind
    | none => pure (none, none)
  pure {
    dimensions := dimensions
    color_attachments := attachments
    depth_attachment := depthA
    depth_buffer_bits := depth_bits
    stencil_attachment := none
    stencil_buffer_bits := none }

/-- Embedding of `MultiOutputFrameBuffer::new`. -/
def MultiOutputFrameBuffer.mk_new (color_attachments : List (String × Texture)) :
    Except Panic MultiOutputFrameBuffer :=
  MultiOutputFrameBuffer.new_impl color_attachments none none

/-- Embedding of `MultiOutputFrameBuffer::with_depth_buffer`. -/
def MultiOutputFrameBuffer.with_depth_buffer
    (color_attachments : List (String × Texture)) (depth : DepthAttachment) :
    Except Panic MultiOutputFrameBuffer :=
  MultiOutputFrameBuffer.new_impl color_attachments (some depth) none

/-- The name-resolution loop of `MultiOutputFrameBuffer::build_attachments`:
each declared name is looked up in the program's fragment-output table, in
declaration order; an unknown name panics before any further name is
resolved. -/
def MultiOutputFrameBuffer.buildColors :
    List (String × Nat) → Program → Except Panic (List (Nat × FboAttachment))
  | [], _ => pure []
  | (name, texture) :: rest, program =>
      match program.get_frag_data_location name with
      | some l => do
          let tail ← MultiOutputFrameBuffer.buildColors rest program
          pure ((l, FboAttachment.TextureA texture GL_TEXTURE_2D 0 0) :: tail)
      | none => throw (Panic.fragOutputNotFound name)

/-- Embedding of `MultiOutputFrameBuffer::build_attachments`. -/
def MultiOutputFrameBuffer.build_attachments (fb : MultiOutputFrameBuffer)
    (program : Program) : Except Panic FramebufferAttachments := do
  let colors ← MultiOutputFrameBuffer.buildColors fb.color_attachments program
  pure {
    colors := colors
    depth_stencil :=
      match fb.depth_attachment with
      | some d => .DepthOnlyA d
      | none => .NoneA }

/-! ## Draw validation (`SimpleFrameBuffer::draw`, `MultiOutputFrameBuffer::draw`) -/

/-- Embedding of `Rect` (the viewport rectangle of the draw parameters). -/
structure Rect : Type where
  left : Nat
  bottom : Nat
  width : Nat
  height : Nat
  deriving DecidableEq

/-- The backend capability the draw path queries:
`context.capabilities().max_viewport_dims`, cast to `u32` per axis. -/
structure Capabilities : Type where
  max_viewport_width : Nat
  max_viewport_height : Nat
  deriving DecidableEq

/-- Modelled from the spec: `DrawParameters` and the `DepthTest` enum live
outside the provided sources. The draw path reads exactly three things from
them: `depth_test.requires_depth_buffer()` (embedded as the boolean field
`depth_test_requires_depth_buffer`, "a depth test that needs a depth
buffer"), `depth_write`, and `viewport`. -/
structure DrawParameters : Type where
  depth_test_requires_depth_buffer : Bool
  depth_write : Bool
  viewport : Option Rect
  deriving DecidableEq

/-- Modelled from the spec: `Surface::has_depth_buffer` is a provided method
of the `Surface` contract defined outside the given sources; per the spec's
capability contract it reports whether `get_depth_buffer_bits()` is present. -/
def SimpleFrameBuffer.has_depth_buffer (fb : SimpleFrameBuffer) : Bool :=
  fb.depth_buffer_bits.isSome

/-- Modelled from the spec: same provided `Surface` method for the
multi-output target. -/
def MultiOutputFrameBuffer.has_depth_buffer (fb : MultiOutputFrameBuffer) :
    Bool :=
  fb.depth_buffer_bits.isSome

/-- Embedding of the recoverable draw errors returned by the draw path. -/
inductive DrawError : Type
  | NoDepthBuffer
  | ViewportTooLarge
  deriving DecidableEq

/-- What reaches `ops::draw` when validation passes: the resolved attachment
list and the target dimensions (the vertex/index/program/uniform collaborators
are forwarded unchanged and carry no validation state). -/
structure DrawDispatch : Type where
  attachments : FramebufferAttachments
  dimensions : Nat × Nat
  deriving DecidableEq

/-- Outcome of a draw call: a typed recoverable error, a panic raised while
resolving attachments, or a dispatch to the native draw primitive. -/
inductive DrawOutcome : Type
  | err (e : DrawError)
  | panicked (p : Panic)
  | dispatched (d : DrawDispatch)
  deriving DecidableEq

/-- Embedding of `SimpleFrameBuffer::draw` (its validation prefix and the
dispatch to `ops::draw`). The second component of the result is the target
after the call: the source never assigns to any field of `self`, so it is
returned unchanged. -/
def SimpleFrameBuffer.draw (fb : SimpleFrameBuffer)
    (draw_parameters : DrawParameters) (caps : Capabilities) :
    DrawOutcome × SimpleFrameBuffer :=
  if !fb.has_depth_buffer &&
      (draw_parameters.depth_test_requires_depth_buffer ||
       draw_parameters.depth_write) then
    (.err .NoDepthBuffer, fb)
  else
    match draw_parameters.viewport with
    | some viewport =>
        if viewport.width > caps.max_viewport_width then
          (.err .ViewportTooLarge, fb)
        else if viewport.height > caps.max_viewport_height then
          (.err .ViewportTooLarge, fb)
        else
          (.dispatched { attachments := fb.attachments,
                         dimensions := fb.dimensions }, fb)
    | none =>
        (.dispatched { attachments := fb.attachments,
                       dimensions := fb.dimensions }, fb)

/-- Embedding of `MultiOutputFrameBuffer::draw`: the same validation prefix,
then the per-draw attachment resolution `build_attachments(program)` (which
may panic on an unknown output name), then dispatch. -/
def MultiOutputFrameBuffer.draw (fb : MultiOutputFrameBuffer)
    (program : Program) (draw_parameters : DrawParameters)
    (caps : Capabilities) : DrawOutcome × MultiOutputFrameBuffer :=
  if !fb.has_depth_buffer &&
      (draw_parameters.depth_test_requires_depth_buffer ||
       draw_parameters.depth_write) then
    (.err .NoDepthBuffer, fb)
  else
    match draw_parameters.viewport with
    | some viewport =>
        if viewport.width > caps.max_viewport_width then
          (.err .ViewportTooLarge, fb)
        else if viewport.height > caps.max_viewport_height then
          (.err .ViewportTooLarge, fb)
        else
          match fb.build_attachments program with
          | .error p => (.panicked p, fb)
          | .ok atts =>
              (.dispatched { attachments := atts,
                             dimensions := fb.dimensions }, fb)
    | none =>
        match fb.build_attachments program with
        | .error p => (.panicked p, fb)
        | .ok atts =>
            (.dispatched { attachments := atts,
                           dimensions := fb.dimensions }, fb)

/-! ## Helper lemmas about the uniform cache -/

/-- Growing the storage to cover index `i` does not change the entry read at
`i` (the padding entries are all `none`, and an out-of-range read is `none`). -/
theorem grow_getD (s : UniformsStorage) (i : Nat) :
    (s.grow i).getD i none = s.getD i none := by
  unfold UniformsStorage.grow
  split
  next h =>
    simp [List.getD_eq_getElem?_getD, List.getElem?_append_right h,
      List.getElem?_replicate, List.getElem?_eq_none h]
    split <;> rfl
  next h => rfl

/-- After growing to cover index `i`, index `i` is in range. -/
theorem grow_lt_length (s : UniformsStorage) (i : Nat) :
    i < (s.grow i).length := by
  unfold UniformsStorage.grow
  split
  next h => simp; omega
  next h => omega

/-- Growing is a no-op when the index is already covered. -/
theorem grow_noop (s : UniformsStorage) (i : Nat) (h : i < s.length) :
    s.grow i = s := by
  unfold UniformsStorage.grow
  simp [Nat.not_le.mpr h]

/-- Reading back an in-range entry just written. -/
theorem set_getD_self (l : UniformsStorage) (i : Nat) (x : Option UniformValue)
    (h : i < l.length) :
    (l.set i x).getD i none = x := by
  simp [List.getD_eq_getElem?_getD, List.getElem?_set_eq_of_lt _ h]

/-- The guard equality implies the two values use the same constructor. -/
theorem eqUV_sameKind (v w : UniformValue) (h : v.eqUV w = true) :
    v.sameKind w = true := by
  cases v <;> cases w <;>
    simp_all [UniformValue.eqUV, UniformValue.sameKind, UniformValue.kindIndex]

/-- Comparability only depends on the kind. -/
theorem sameKind_comparable_of (v w : UniformValue)
    (hv : v.comparable = true) (hk : w.sameKind v = true) :
    w.comparable = true := by
  cases v <;> cases w <;>
    simp_all [UniformValue.comparable, UniformValue.sameKind,
      UniformValue.kindIndex]

/-- `compare_and_store` on a non-comparable (opaque) value: report "changed"
and store nothing (the storage is still grown). -/
theorem cas_texture_kind (s : UniformsStorage) (i : Nat) (v : UniformValue)
    (hv : v.comparable = false) :
    s.compare_and_store i v = (false, s.grow i) := by
  cases v <;> simp_all [UniformValue.comparable]
  rfl

/-- `compare_and_store` on a comparable value when the slot records no prior
value: report "changed" and store the value. -/
theorem cas_fresh (s : UniformsStorage) (i : Nat) (v : UniformValue)
    (hc : v.comparable = true)
    (hfresh : (s.grow i).getD i none = none) :
    s.compare_and_store i v = (false, (s.grow i).set i (some v)) := by
  cases v <;>
    simp_all [UniformsStorage.compare_and_store, UniformValue.comparable]

/-- `compare_and_store` when the slot holds a value that the submitted value
compares equal to: report "unchanged" and leave the storage (beyond growth)
untouched. -/
theorem cas_hit (s : UniformsStorage) (i : Nat) (v w : UniformValue)
    (hw : (s.grow i).getD i none = some w) (heq : v.eqUV w = true) :
    s.compare_and_store i v = (true, s.grow i) := by
  cases v <;> cases w <;>
    simp_all [UniformsStorage.compare_and_store, UniformValue.eqUV]

/-- `compare_and_store` on a comparable value when the slot holds a value the
submitted value does not compare equal to (different kind, different payload,
or a NaN payload): report "changed" and overwrite. -/
theorem cas_miss (s : UniformsStorage) (i : Nat) (v w : UniformValue)
    (hc : v.comparable = true)
    (hw : (s.grow i).getD i none = some w) (hne : v.eqUV w = false) :
    s.compare_and_store i v = (false, (s.grow i).set i (some v)) := by
  cases v <;> cases w <;>
    simp_all [UniformsStorage.compare_and_store, UniformValue.eqUV,
      UniformValue.comparable]

/-! ## Claims about the uniform diff cache -/

/-- C5 counterexample: the claim states that for every supported comparable
value `v`, two consecutive `compare_and_store(i, v)` calls return `false`
then `true`. For the comparable value `Float NaN` (a supported `f32` value,
embedded as `Float none`), Rust `==` is not reflexive: the second call also
returns `false` (changed), refuting the claim at this concrete input. -/
theorem claim_c5_counterexample :
    (UniformsStorage.compare_and_store [] 0 (.Float none)).1 = false ∧
    (UniformsStorage.compare_and_store
      (UniformsStorage.compare_and_store [] 0 (.Float none)).2
      0 (.Float none)).1 = false := by
  decide

/-- C5 (amended): for every slot `i` and every supported comparable value `v`
that is reflexively equal to itself under its kind's exact equality (every
value without a NaN float payload), starting from any storage whose slot `i`
records no prior value (fresh or beyond the current length):
the first call `compare_and_store(i, v)` returns `false` (changed),
an immediately repeated call with the same `v` returns `true` (unchanged),
and instead calling with a value `v2` of the same kind that does not compare
equal to `v` returns `false` again. -/
theorem claim_c5_amended (s : UniformsStorage) (i : Nat) (v v2 : UniformValue)
    (hc : v.comparable = true)
    (hrefl : v.eqUV v = true)
    (hfresh : s.getD i none = none)
    (hkind : v2.sameKind v = true)
    (hne : v2.eqUV v = false) :
    (s.compare_and_store i v).1 = false ∧
    ((s.compare_and_store i v).2.compare_and_store i v).1 = true ∧
    ((s.compare_and_store i v).2.compare_and_store i v2).1 = false := by
  have hfresh2 : (s.grow i).getD i none = none := by
    rw [grow_getD]; exact hfresh
  have h1 := cas_fresh s i v hc hfresh2
  have hget : ((s.grow i).set i (some v)).getD i none = some v :=
    set_getD_self (s.grow i) i (some v) (grow_lt_length s i)
  have hget2 :
      (UniformsStorage.grow ((s.grow i).set i (some v)) i).getD i none = some v := by
    rw [grow_getD]; exact hget
  have h2 := cas_hit ((s.grow i).set i (some v)) i v v hget2 hrefl
  have hc2 : v2.comparable = true := sameKind_comparable_of v v2 hc hkind
  have h3 := cas_miss ((s.grow i).set i (some v)) i v2 v hc2 hget2 hne
  refine ⟨?_, ?_, ?_⟩
  · rw [h1]
  · rw [h1]
    show (UniformsStorage.compare_and_store ((s.grow i).set i (some v)) i v).1 = true
    rw [h2]
  · rw [h1]
    show (UniformsStorage.compare_and_store ((s.grow i).set i (some v)) i v2).1 = false
    rw [h3]

/-- C5 amended, witnessed at slot 0 with `SignedInt 1` and `SignedInt 2` on a
fresh storage. -/
theorem claim_c5_amended_witness :
    (UniformsStorage.compare_and_store [] 0 (.SignedInt 1)).1 = false ∧
    (UniformsStorage.compare_and_store
      (UniformsStorage.compare_and_store [] 0 (.SignedInt 1)).2
      0 (.SignedInt 1)).1 = true ∧
    (UniformsStorage.compare_and_store
      (UniformsStorage.compare_and_store [] 0 (.SignedInt 1)).2
      0 (.SignedInt 2)).1 = false :=
  claim_c5_amended [] 0 (.SignedInt 1) (.SignedInt 2) (by decide) (by decide)
    (by decide) (by decide) (by decide)

/-- C6: `compare_and_store` returns `true` only when the slot already holds a
value of the same kind that compares exactly equal to the submitted one;
when the cached value is of a different kind the call reports "changed"; and
a non-comparable (opaque texture) value always reports "changed" and is never
stored (the slot's recorded entry is unchanged by the call). -/
theorem claim_c6 (s : UniformsStorage) (i : Nat) (v : UniformValue) :
    ((s.compare_and_store i v).1 = true →
      ∃ w, s.getD i none = some w ∧ v.sameKind w = true ∧ v.eqUV w = true) ∧
    (∀ w, s.getD i none = some w → v.sameKind w = false →
      (s.compare_and_store i v).1 = false) ∧
    (v.comparable = false →
      (s.compare_and_store i v).1 = false ∧
      (s.compare_and_store i v).2.getD i none = s.getD i none) := by
  refine ⟨?_, ?_, ?_⟩
  · intro htrue
    rcases hw : (s.grow i).getD i none with _ | w
    · rcases hcv : v.comparable with _ | _
      · rw [cas_texture_kind s i v hcv] at htrue; simp at htrue
      · rw [cas_fresh s i v hcv hw] at htrue; simp at htrue
    · rcases heq : v.eqUV w with _ | _
      · rcases hcv : v.comparable with _ | _
        · rw [cas_texture_kind s i v hcv] at htrue; simp at htrue
        · rw [cas_miss s i v w hcv hw heq] at htrue; simp at htrue
      · exact ⟨w, by rw [← grow_getD]; exact hw, eqUV_sameKind v w heq, heq⟩
  · intro w hw hkind
    have hw2 : (s.grow i).getD i none = some w := by rw [grow_getD]; exact hw
    have hne : v.eqUV w = false := by
      rcases h : v.eqUV w with _ | _
      · rfl
      · exact absurd (eqUV_sameKind v w h) (by simp [hkind])
    rcases hcv : v.comparable with _ | _
    · rw [cas_texture_kind s i v hcv]
    · rw [cas_miss s i v w hcv hw2 hne]
  · intro hcv
    rw [cas_texture_kind s i v hcv]
    exact ⟨rfl, grow_getD s i⟩

/-- C6, witnessed: a cached `UnsignedInt` against a submitted `SignedInt`
reports "changed", and a submitted texture value reports "changed" and leaves
the cached entry untouched. -/
theorem claim_c6_witness :
    ((UniformsStorage.compare_and_store [some (UniformValue.UnsignedInt 5)]
        0 (.SignedInt 3)).1 = false) ∧
    ((UniformsStorage.compare_and_store [some (UniformValue.SignedInt 3)]
        1 (.Texture2d 7)).1 = false) ∧
    (List.getD (UniformsStorage.compare_and_store [some (UniformValue.SignedInt 3)]
        1 (.Texture2d 7)).2 1 none =
      List.getD [some (UniformValue.SignedInt 3)] 1 none) := by
  refine ⟨?_, ?_, ?_⟩
  · exact (claim_c6 [some (.UnsignedInt 5)] 0 (.SignedInt 3)).2.1
      (.UnsignedInt 5) (by decide) (by decide)
  · exact ((claim_c6 [some (.SignedInt 3)] 1 (.Texture2d 7)).2.2 (by decide)).1
  · exact ((claim_c6 [some (.SignedInt 3)] 1 (.Texture2d 7)).2.2 (by decide)).2

/-! ## Claims about render-target construction -/

/-- Whether a depth/stencil classification is the stencil-only case. -/
def FramebufferDepthStencilAttachments.isStencilOnly :
    FramebufferDepthStencilAttachments → Bool
  | .StencilOnlyA _ => true
  | _ => false

/-- C1: evaluation of a stencil-only construction. The claim requires the
stored `depth_stencil` to be the `StencilOnly` case; the code (source line
220 of `framebuffer.rs`) wraps the stencil attachment in the depth-only
variant instead, while still reporting stencil bits (`Some(8)`) and no depth
bits — the `else if let Some(stencil)` arm is a slip that binds the stencil
attachment but stores it through `DepthAttachment`. -/
theorem claim_c1_stencil_only_misclassified :
    SimpleFrameBuffer.with_stencil_buffer (.Texture2d ⟨3, 16, 16⟩)
        (.Texture2d ⟨5, 16, 16⟩) =
      .ok { attachments := { colors := [(0, .TextureA 3 GL_TEXTURE_2D 0 0)],
                             depth_stencil :=
                               .DepthOnlyA (.TextureA 5 GL_TEXTURE_2D 0 0) },
            dimensions := (16, 16),
            depth_buffer_bits := none,
            stencil_buffer_bits := some 8 } ∧
    (FramebufferDepthStencilAttachments.DepthOnlyA
        (.TextureA 5 GL_TEXTURE_2D 0 0)).isStencilOnly = false := by
  decide

/-- C2: evaluation at the failing input. A depth attachment backed by a
render-buffer is never dimension-checked (the source carries a
`// TODO: dimensions` comment at both sites), so constructing a simple target
with a 64×64 color texture and a 32×32 depth render-buffer — and likewise a
multi-output target — succeeds instead of failing, leaving a constructed
target whose attachments do not share dimensions. -/
theorem claim_c2_mismatched_renderbuffer_accepted :
    SimpleFrameBuffer.with_depth_buffer (.Texture2d ⟨1, 64, 64⟩)
        (.RenderBuffer ⟨2, 32, 32⟩) =
      .ok { attachments := { colors := [(0, .TextureA 1 GL_TEXTURE_2D 0 0)],
                             depth_stencil := .DepthOnlyA (.RenderBufferA 2) },
            dimensions := (64, 64),
            depth_buffer_bits := some 32,
            stencil_buffer_bits := none } ∧
    MultiOutputFrameBuffer.with_depth_buffer [("output1", ⟨7, 64, 64⟩)]
        (.RenderBuffer ⟨2, 32, 32⟩) =
      .ok { dimensions := (64, 64),
            color_attachments := [("output1", 7)],
            depth_attachment := some (.RenderBufferA 2),
            depth_buffer_bits := some 32,
            stencil_attachment := none,
            stencil_buffer_bits := none } := by
  decide

/-- C9: every construction of a simple render target through the combined
depth-stencil variant is rejected at construction time (the
`unimplemented!()` guard at the top of `new_impl`), for every color
attachment and every depth-stencil attachment. -/
theorem claim_c9_depth_stencil_rejected (color : ColorAttachment)
    (depthstencil : DepthStencilAttachment) :
    SimpleFrameBuffer.with_depth_stencil_buffer color depthstencil =
      .error Panic.unimplementedDepthStencil := rfl

/-! ## Claims about draw validation -/

/-- Example fixtures used by the draw-claim witnesses. -/
def exSimpleFb : SimpleFrameBuffer :=
  { attachments := { colors := [(0, .TextureA 1 GL_TEXTURE_2D 0 0)],
                     depth_stencil := .NoneA },
    dimensions := (16, 16),
    depth_buffer_bits := none,
    stencil_buffer_bits := none }

/-- A depth-less multi-output fixture with two named color attachments. -/
def exMultiFb : MultiOutputFrameBuffer :=
  { dimensions := (16, 16),
    color_attachments := [("output1", 11), ("output2", 12)],
    depth_attachment := none,
    depth_buffer_bits := none,
    stencil_attachment := none,
    stencil_buffer_bits := none }

/-- A program binding `output1` to slot 0 and `output2` to slot 1. -/
def exProgram : Program :=
  { id := 9,
    frag_data_locations := [("output1", 0), ("output2", 1)],
    transform_feedback_mode := none,
    transform_feedback_varyings := [] }

/-- Backend capabilities with a 1024×768 maximum viewport. -/
def exCaps : Capabilities := { max_viewport_width := 1024,
                               max_viewport_height := 768 }

/-- C3: a draw whose parameters request a depth test that needs a depth
buffer, or request depth writes, against a target (simple or multi-output)
with no depth attachment, returns the `NoDepthBuffer` error and leaves the
target unchanged (the returned target equals the one passed in, all fields
included). -/
theorem claim_c3_no_depth_buffer (fb : SimpleFrameBuffer)
    (mfb : MultiOutputFrameBuffer) (program : Program)
    (draw_parameters : DrawParameters) (caps : Capabilities)
    (h1 : fb.depth_buffer_bits = none)
    (h2 : mfb.depth_buffer_bits = none)
    (hreq : draw_parameters.depth_test_requires_depth_buffer = true ∨
            draw_parameters.depth_write = true) :
    fb.draw draw_parameters caps = (.err .NoDepthBuffer, fb) ∧
    mfb.draw program draw_parameters caps = (.err .NoDepthBuffer, mfb) := by
  have hb1 : fb.has_depth_buffer = false := by
    simp [SimpleFrameBuffer.has_depth_buffer, h1]
  have hb2 : mfb.has_depth_buffer = false := by
    simp [MultiOutputFrameBuffer.has_depth_buffer, h2]
  rcases hreq with h | h <;>
    exact ⟨by simp [SimpleFrameBuffer.draw, hb1, h],
           by simp [MultiOutputFrameBuffer.draw, hb2, h]⟩

/-- C3, witnessed: depth writes requested against depth-less targets. -/
theorem claim_c3_witness :
    exSimpleFb.draw { depth_test_requires_depth_buffer := false,
                      depth_write := true, viewport := none } exCaps =
      (.err .NoDepthBuffer, exSimpleFb) ∧
    exMultiFb.draw exProgram { depth_test_requires_depth_buffer := false,
                               depth_write := true, viewport := none } exCaps =
      (.err .NoDepthBuffer, exMultiFb) :=
  claim_c3_no_depth_buffer exSimpleFb exMultiFb exProgram
    { depth_test_requires_depth_buffer := false, depth_write := true,
      viewport := none }
    exCaps rfl rfl (Or.inr rfl)

/-- C4: for a draw whose parameters supply an explicit viewport and which
passes the depth-buffer check, the draw returns `ViewportTooLarge` exactly
when the viewport width strictly exceeds the backend's maximum width or the
viewport height strictly exceeds the backend's maximum height (per axis); in
particular a viewport exactly at the maxima passes the check. Holds for both
the simple and the multi-output draw paths. -/
theorem claim_c4_viewport_too_large (fb : SimpleFrameBuffer)
    (mfb : MultiOutputFrameBuffer) (program : Program)
    (draw_parameters : DrawParameters) (caps : Capabilities) (viewport : Rect)
    (hvp : draw_parameters.viewport = some viewport)
    (hd1 : fb.has_depth_buffer = true ∨
      (draw_parameters.depth_test_requires_depth_buffer = false ∧
       draw_parameters.depth_write = false))
    (hd2 : mfb.has_depth_buffer = true ∨
      (draw_parameters.depth_test_requires_depth_buffer = false ∧
       draw_parameters.depth_write = false)) :
    ((fb.draw draw_parameters caps).1 = .err .ViewportTooLarge ↔
      (viewport.width > caps.max_viewport_width ∨
       viewport.height > caps.max_viewport_height)) ∧
    ((mfb.draw program draw_parameters caps).1 = .err .ViewportTooLarge ↔
      (viewport.width > caps.max_viewport_width ∨
       viewport.height > caps.max_viewport_height)) := by
  have hc1 : (!fb.has_depth_buffer &&
      (draw_parameters.depth_test_requires_depth_buffer ||
       draw_parameters.depth_write)) = false := by
    rcases hd1 with h | ⟨ha, hb⟩
    · simp [h]
    · simp [ha, hb]
  have hc2 : (!mfb.has_depth_buffer &&
      (draw_parameters.depth_test_requires_depth_buffer ||
       draw_parameters.depth_write)) = false := by
    rcases hd2 with h | ⟨ha, hb⟩
    · simp [h]
    · simp [ha, hb]
  constructor
  · simp only [SimpleFrameBuffer.draw, hc1, hvp, Bool.false_eq_true, if_false]
    by_cases hw : viewport.width > caps.max_viewport_width
    · simp [hw]
    · by_cases hh : viewport.height > caps.max_viewport_height
      · simp [hw, hh]
      · simp [hw, hh]
  · simp only [MultiOutputFrameBuffer.draw, hc2, hvp, Bool.false_eq_true,
      if_false]
    by_cases hw : viewport.width > caps.max_viewport_width
    · simp [hw]
    · by_cases hh : viewport.height > caps.max_viewport_height
      · simp [hw, hh]
      · rcases hb : mfb.build_attachments program with p | atts <;>
          simp [hw, hh, hb]

/-- C4, witnessed: a 2000×10 viewport against 1024×768 maxima is rejected on
both paths, the width axis alone exceeding its maximum. -/
theorem claim_c4_witness :
    ((exSimpleFb.draw { depth_test_requires_depth_buffer := false,
                        depth_write := false,
                        viewport := some ⟨0, 0, 2000, 10⟩ } exCaps).1 =
        .err .ViewportTooLarge ↔
      ((2000 : Nat) > 1024 ∨ (10 : Nat) > 768)) ∧
    ((exMultiFb.draw exProgram { depth_test_requires_depth_buffer := false,
                                 depth_write := false,
                                 viewport := some ⟨0, 0, 2000, 10⟩ } exCaps).1 =
        .err .ViewportTooLarge ↔
      ((2000 : Nat) > 1024 ∨ (10 : Nat) > 768)) :=
  claim_c4_viewport_too_large exSimpleFb exMultiFb exProgram
    { depth_test_requires_depth_buffer := false, depth_write := false,
      viewport := some ⟨0, 0, 2000, 10⟩ }
    exCaps ⟨0, 0, 2000, 10⟩ rfl (Or.inr ⟨rfl, rfl⟩) (Or.inr ⟨rfl, rfl⟩)

/-! ## Claims about output-slot resolution (multi-output draw) -/

/-- The 4×4 texture attached under the name `output1`. -/
def c7_tex1 : Texture := { id := 11, width := 4, height := 4 }

/-- The 4×4 texture attached under the name `output2`. -/
def c7_tex2 : Texture := { id := 12, width := 4, height := 4 }

/-- The resolved attachment of `c7_tex1`. -/
def c7_att1 : FboAttachment := .TextureA 11 GL_TEXTURE_2D 0 0

/-- The resolved attachment of `c7_tex2`. -/
def c7_att2 : FboAttachment := .TextureA 12 GL_TEXTURE_2D 0 0

/-- The multi-output target declaring `output1` first, `output2` second. -/
def c7_fb12 : MultiOutputFrameBuffer :=
  { dimensions := (4, 4),
    color_attachments := [("output1", 11), ("output2", 12)],
    depth_attachment := none,
    depth_buffer_bits := none,
    stencil_attachment := none,
    stencil_buffer_bits := none }

/-- The multi-output target declaring `output2` first, `output1` second. -/
def c7_fb21 : MultiOutputFrameBuffer :=
  { dimensions := (4, 4),
    color_attachments := [("output2", 12), ("output1", 11)],
    depth_attachment := none,
    depth_buffer_bits := none,
    stencil_attachment := none,
    stencil_buffer_bits := none }

/-- A multi-output target declaring a name (`output3`) that `exProgram` does
not expose. -/
def c7_fb3 : MultiOutputFrameBuffer :=
  { dimensions := (4, 4),
    color_attachments := [("output1", 11), ("output3", 13)],
    depth_attachment := none,
    depth_buffer_bits := none,
    stencil_attachment := none,
    stencil_buffer_bits := none }

/-- C7 counterexample: the claim states that against a program exposing
`{output1 ↦ 0, output2 ↦ 1}` the resolved slot list is `[(0, tex1), (1,
tex2)]` regardless of declaration order. Declaring `output2` first yields
the list `[(1, tex2), (0, tex1)]` — the same pairs in declaration order —
which is not the list `[(0, tex1), (1, tex2)]`. -/
theorem claim_c7_counterexample :
    MultiOutputFrameBuffer.mk_new [("output2", c7_tex2), ("output1", c7_tex1)] =
      .ok c7_fb21 ∧
    c7_fb21.build_attachments exProgram =
      .ok { colors := [(1, c7_att2), (0, c7_att1)], depth_stencil := .NoneA } ∧
    (Except.ok { colors := [(1, c7_att2), (0, c7_att1)],
                 depth_stencil := .NoneA } :
        Except Panic FramebufferAttachments) ≠
      .ok { colors := [(0, c7_att1), (1, c7_att2)], depth_stencil := .NoneA } := by
  decide

/-- C7 (amended): resolving the named color attachments maps each declared
name to its program output slot, in declaration order; the set of resolved
(slot, attachment) pairs is `{(0, tex1), (1, tex2)}` regardless of
declaration order (the two orders give lists that are permutations of each
other), and a declared name absent from the program's output-slot table
aborts the resolution — and hence the draw — with a name-not-found error
rather than dropping the attachment or guessing a slot. -/
theorem claim_c7_amended :
    MultiOutputFrameBuffer.mk_new [("output1", c7_tex1), ("output2", c7_tex2)] =
      .ok c7_fb12 ∧
    c7_fb12.build_attachments exProgram =
      .ok { colors := [(0, c7_att1), (1, c7_att2)], depth_stencil := .NoneA } ∧
    c7_fb21.build_attachments exProgram =
      .ok { colors := [(1, c7_att2), (0, c7_att1)], depth_stencil := .NoneA } ∧
    List.Perm [(1, c7_att2), (0, c7_att1)] [(0, c7_att1), (1, c7_att2)] ∧
    c7_fb3.build_attachments exProgram =
      .error (.fragOutputNotFound "output3") ∧
    (c7_fb3.draw exProgram { depth_test_requires_depth_buffer := false,
                             depth_write := false, viewport := none }
        exCaps).1 =
      .panicked (.fragOutputNotFound "output3") := by
  refine ⟨by decide, by decide, by decide, ?_, by decide, by decide⟩
  exact List.Perm.swap (0, c7_att1) (1, c7_att2) []

/-! ## Claims about transform-feedback format matching -/

/-- The (name, cumulative offset, type) triples that interleaved matching
requires, as the spec words it: each captured variable at the cumulative
offset of the sizes of the variables preceding it (starting from `off`). -/
def tfRequiredEntries : List TransformFeedbackVarying → Nat →
    List (String × Nat × AttributeType)
  | [], _ => []
  | var :: rest, off => (var.name, off, var.ty) :: tfRequiredEntries rest (off + var.size)

/-- The `find` of the matching loop succeeds exactly when the required triple
is an element of the format. -/
theorem any_triple_mem (format : VertexFormat) (n : String) (o : Nat)
    (t : AttributeType) :
    format.any (fun e => e.1 == n && e.2.1 == o && e.2.2 == t) = true ↔
      (n, o, t) ∈ format := by
  simp only [List.any_eq_true, Bool.and_eq_true, beq_iff_eq]
  constructor
  · rintro ⟨⟨n1, o1, t1⟩, hm, ⟨h1, h2⟩, h3⟩
    simp only at h1 h2 h3
    rw [h1, h2, h3] at hm
    exact hm
  · intro hm
    exact ⟨(n, o, t), hm, ⟨rfl, rfl⟩, rfl⟩

/-- The captured program of the C8 example: mode Interleaved, captured
variables `a` (vec3, 12 bytes) then `b` (vec2, 8 bytes). -/
def c8_program : Program :=
  { id := 7,
    frag_data_locations := [],
    transform_feedback_mode := some .Interleaved,
    transform_feedback_varyings :=
      [{ name := "a", size := 12, ty := .F32F32F32 },
       { name := "b", size := 8, ty := .F32F32 }] }

/-- C8: the matching loop succeeds exactly when every captured variable is
found in the format at the cumulative offset of the sizes of the variables
preceding it (first conjunct, fully general); for the example program the
match succeeds exactly when the format contains `("a", 0, vec3)` and
`("b", 12, vec2)` (second conjunct); the example format matches, and
removing either entry or moving one to a wrong offset breaks the match
(remaining conjuncts). -/
theorem claim_c8_tf_matching :
    (∀ (vars : List TransformFeedbackVarying) (off : Nat)
        (format : VertexFormat),
      tfVaryingsMatchFrom vars off format = true ↔
        ∀ e ∈ tfRequiredEntries vars off, e ∈ format) ∧
    (∀ format : VertexFormat,
      is_transform_feedback_matching format c8_program = true ↔
        (("a", 0, AttributeType.F32F32F32) ∈ format ∧
         ("b", 12, AttributeType.F32F32) ∈ format)) ∧
    is_transform_feedback_matching
      [("a", 0, .F32F32F32), ("b", 12, .F32F32)] c8_program = true ∧
    is_transform_feedback_matching [("b", 12, .F32F32)] c8_program = false ∧
    is_transform_feedback_matching [("a", 0, .F32F32F32)] c8_program = false ∧
    is_transform_feedback_matching
      [("a", 0, .F32F32F32), ("b", 8, .F32F32)] c8_program = false ∧
    is_transform_feedback_matching
      [("a", 4, .F32F32F32), ("b", 12, .F32F32)] c8_program = false := by
  have hgen : ∀ (vars : List TransformFeedbackVarying) (off : Nat)
      (format : VertexFormat),
      tfVaryingsMatchFrom vars off format = true ↔
        ∀ e ∈ tfRequiredEntries vars off, e ∈ format := by
    intro vars
    induction vars with
    | nil => intro off format; simp [tfVaryingsMatchFrom, tfRequiredEntries]
    | cons var rest ih =>
        intro off format
        simp only [tfVaryingsMatchFrom, tfRequiredEntries,
          List.forall_mem_cons]
        by_cases hfound : format.any (fun e =>
            e.1 == var.name && e.2.1 == off && e.2.2 == var.ty) = true
        · rw [if_pos hfound, ih (off + var.size) format]
          rw [any_triple_mem] at hfound
          simp [hfound]
        · rw [if_neg hfound]
          rw [any_triple_mem] at hfound
          simp [hfound]
  refine ⟨hgen, ?_, by decide, by decide, by decide, by decide, by decide⟩
  intro format
  have hmode : is_transform_feedback_matching format c8_program =
      tfVaryingsMatchFrom c8_program.transform_feedback_varyings 0 format := by
    simp [is_transform_feedback_matching, c8_program]
  rw [hmode, hgen]
  simp [c8_program, tfRequiredEntries]

/-- C8, witnessed: a format containing the two required triples (plus an
extra entry, in any order) matches. -/
theorem claim_c8_witness :
    is_transform_feedback_matching
      [("x", 3, .F32), ("b", 12, .F32F32), ("a", 0, .F32F32F32)]
      c8_program = true :=
  (claim_c8_tf_matching.2.1
    [("x", 3, .F32), ("b", 12, .F32F32), ("a", 0, .F32F32F32)]).mpr
    (by decide)

/-- C10: for every program whose transform-feedback mode is anything other
than `Interleaved` (including none at all), `is_transform_feedback_matching`
returns `false` regardless of the format's contents, and consequently
`new_session` returns `none` for such a program for every display and
buffer. -/
theorem claim_c10_non_interleaved (format : VertexFormat) (program : Program)
    (h : program.transform_feedback_mode ≠
      some TransformFeedbackMode.Interleaved) :
    is_transform_feedback_matching format program = false ∧
    ∀ (display : Display) (buffer : Buffer),
      new_session display buffer format program = none := by
  have hm : is_transform_feedback_matching format program = false := by
    simp [is_transform_feedback_matching, h]
  refine ⟨hm, ?_⟩
  intro display buffer
  unfold new_session
  split
  · rfl
  · rw [hm]; simp

/-- The program of the C10 witness: no transform-feedback mode, one captured
variable. -/
def c10_program : Program :=
  { id := 3,
    frag_data_locations := [],
    transform_feedback_mode := none,
    transform_feedback_varyings := [{ name := "a", size := 12, ty := .F32F32F32 }] }

/-- C10, witnessed: a format whose triples match the captured variable
exactly still fails the match and yields no session, because the mode is not
`Interleaved`. -/
theorem claim_c10_witness :
    is_transform_feedback_matching [("a", 0, .F32F32F32)] c10_program = false ∧
    new_session { version_ge_gl_3_0 := true, gl_ext_transform_feedback := true }
      { id := 4 } [("a", 0, .F32F32F32)] c10_program = none := by
  have h := claim_c10_non_interleaved [("a", 0, .F32F32F32)] c10_program
    (by decide)
  exact ⟨h.1, h.2 { version_ge_gl_3_0 := true, gl_ext_transform_feedback := true }
    { id := 4 }⟩
